import Mathlib

/-
  Verification development for the wandb launch-agent repository.

  The claims fall into two groups:

  * C1-C8 concern the launch-agent orchestration core
    (wandb/sdk/launch/agent2/agent.py, jobset.py, controller.py).  Those
    modules are not part of the source tree here; only their unit tests
    (tests/pytest_tests/unit_tests/test_launch/test_agent/test_agent2.py)
    are.  Their behaviour is therefore modelled from the spec, and every
    such definition carries a doc comment starting "Modelled from the
    spec:".

  * C9 and C10 concern code that is present in the source tree:
    wandb/sdk/lib/progress.py (_DynamicOperationStatsPrinter) and
    wandb/sdk/rich_types/video.py (prepare_data).  Those definitions are
    shallow embeddings of the Python source.
-/

/-- Python exception values that the modelled code can raise. -/
inductive PyError where
  | valueError (msg : String)
  | typeError (msg : String)
  | keyboardInterrupt
deriving DecidableEq, Repr

/-! ### C3: controller registry (spec-modelled) -/

/-- A controller factory object; identified by a numeric object identity so
that "returns the exact registered factory object" is expressible. -/
abbrev ControllerFactory := Nat

/-- Modelled from the spec: the process-wide `ControllerRegistry` mapping a
resource-kind string to a controller factory (spec section 3; the class
attribute `LaunchAgent2._controller_impls` seen in test_agent2.py).  The
agent2 module itself is not under src/. -/
abbrev ControllerRegistry := List (String × ControllerFactory)

/-- Modelled from the spec: `registerControllerImpl(resourceKind, factory)`
(spec section 4.1); last registration for a given kind wins, which the
association list realises by prepending. -/
def register_controller_impl (kind : String) (factory : ControllerFactory)
    (reg : ControllerRegistry) : ControllerRegistry :=
  (kind, factory) :: reg

/-- Modelled from the spec: `controllerFor(resourceKind)` returns the
registered factory or fails with a "no controller for resource kind"
configuration error, raised as a ValueError in the test
test_agent_controller_registry (spec section 4.1). -/
def get_controller_for_jobset (kind : String) (reg : ControllerRegistry) :
    Except PyError ControllerFactory :=
  match reg.lookup kind with
  | some f => Except.ok f
  | none =>
    Except.error (PyError.valueError ("no controller for resource kind " ++ kind))

/-! ### C4: agent singleton (spec-modelled) -/

/-- Modelled from the spec: the static configuration object handed to the
agent at construction (spec section 3, AgentConfig; the dict passed to
`LaunchAgent2(api=..., config=...)` in test_agent2.py). -/
structure AgentConfig where
  entity : String
  project : String
  queues : List String
deriving DecidableEq, Repr

/-- Modelled from the spec: one LaunchAgent2 instance, owning its api client
handle (abstracted to a numeric identity) and its configuration. -/
structure Agent where
  api : Nat
  config : AgentConfig
deriving DecidableEq, Repr

/-- Modelled from the spec: the class-level singleton state of LaunchAgent2
(the `_instance` / `_initialized` class attributes reset by the
`fresh_agent` fixture in test_agent2.py). -/
structure AgentClassState where
  inst : Option Agent
  initialized : Bool
deriving DecidableEq, Repr

/-- The class state at the start of a process lifetime: no instance yet. -/
def initialClassState : AgentClassState := ⟨none, false⟩

/-- Modelled from the spec: `getOrCreate(apiClient, config)` — the first call
constructs and initializes, subsequent calls return the same instance
regardless of the passed configuration (spec section 4.1). -/
def launchAgent2_construct (s : AgentClassState) (api : Nat)
    (config : AgentConfig) : AgentClassState × Agent :=
  match s.inst with
  | some a => (s, a)
  | none =>
    let a : Agent := ⟨api, config⟩
    (⟨some a, true⟩, a)

/-! ### C5: jobset metadata generation counter (spec-modelled) -/

/-- Modelled from the spec: `JobSetMetadata` with its remote-assigned
identity and monotonically increasing generation counter (spec section 3). -/
structure JobSetMetadata where
  id : String
  name : String
  target_resource : String
  generation : Nat
deriving DecidableEq, Repr

/-- Modelled from the spec: a remote snapshot of one queue — items plus
metadata carrying a generation counter (spec section 4.2). -/
structure JobSetSnapshot where
  items : List String
  metadata : JobSetMetadata
deriving DecidableEq, Repr

/-- Modelled from the spec: a JobSet's local view of the remote queue. -/
structure JobSetLocal where
  items : List String
  metadata : JobSetMetadata
deriving DecidableEq, Repr

/-- Modelled from the spec: applying one sync to a JobSet's local state.  A
snapshot whose generation is lower than the current one is a
stale/conflicting update and is dropped, leaving local state unchanged
(spec sections 3 and 4.2). -/
def applySync (s : JobSetLocal) (snap : JobSetSnapshot) : JobSetLocal :=
  if snap.metadata.generation < s.metadata.generation then s
  else ⟨snap.items, snap.metadata⟩

/-! ### C6: controller backpressure (spec-modelled) -/

/-- Identity of one QueueItem. -/
abbrev ItemId := Nat

/-- Modelled from the spec: the per-resource-kind Controller with its hard
concurrency ceiling and its set of in-flight items (spec section 4.3). -/
structure LaunchController where
  limit : Nat
  inFlight : List ItemId
deriving DecidableEq, Repr

/-- Modelled from the spec: the remote queue holding items not yet claimed by
any agent. -/
structure RemoteQueue where
  pending : List ItemId
deriving DecidableEq, Repr

/-- Result of `submit(item)`. -/
inductive SubmitResult where
  | accepted
  | backpressure
deriving DecidableEq, Repr

/-- Modelled from the spec: `submit(item)` accepts a ready QueueItem and
fails fast, signalling backpressure, when the concurrency limit is already
saturated; a rejected item is left in the remote queue, neither claimed nor
locally buffered (spec sections 4.3 and 5). -/
def submit (c : LaunchController) (q : RemoteQueue) (item : ItemId) :
    LaunchController × RemoteQueue × SubmitResult :=
  if c.limit ≤ c.inFlight.length then
    (c, q, SubmitResult.backpressure)
  else
    ({ c with inFlight := item :: c.inFlight },
     { q with pending := q.pending.erase item },
     SubmitResult.accepted)

/-! ### Theorems for C3-C6 -/

/-- C3: for every resource kind with a registered controller factory, lookup
returns exactly the registered factory object; for a kind with no
registration it raises a ValueError and never silently returns nothing. -/
theorem C3_controller_registry (reg : ControllerRegistry) (kind : String) :
    (∀ f : ControllerFactory, reg.lookup kind = some f →
      get_controller_for_jobset kind reg = Except.ok f) ∧
    (reg.lookup kind = none →
      get_controller_for_jobset kind reg =
        Except.error (PyError.valueError ("no controller for resource kind " ++ kind))) ∧
    (∀ f : ControllerFactory,
      get_controller_for_jobset kind (register_controller_impl kind f reg) =
        Except.ok f) := by
  refine ⟨fun f hf => ?_, fun hn => ?_, fun f => ?_⟩
  · simp [get_controller_for_jobset, hf]
  · simp [get_controller_for_jobset, hn]
  · simp [get_controller_for_jobset, register_controller_impl, List.lookup]

/-- Witness for C3 at the registry of the unit test: kind "test-exists" is
registered with factory 7, kind "test-nothing" is not registered. -/
theorem C3_controller_registry_witness :
    get_controller_for_jobset "test-exists" [("test-exists", 7)] = Except.ok 7 ∧
    get_controller_for_jobset "test-nothing" [("test-exists", 7)] =
      Except.error (PyError.valueError
        ("no controller for resource kind " ++ "test-nothing")) :=
  ⟨(C3_controller_registry [("test-exists", 7)] "test-exists").1 7 rfl,
   (C3_controller_registry [("test-exists", 7)] "test-nothing").2.1 rfl⟩

/-- C4: within one process lifetime, two constructions of the agent return
the same instance even with differing api/config arguments, and the second
construction does not replace the state established by the first. -/
theorem C4_agent_singleton (api1 api2 : Nat) (cfg1 cfg2 : AgentConfig) :
    (launchAgent2_construct
        (launchAgent2_construct initialClassState api1 cfg1).1 api2 cfg2).2 =
      (launchAgent2_construct initialClassState api1 cfg1).2 ∧
    (launchAgent2_construct
        (launchAgent2_construct initialClassState api1 cfg1).1 api2 cfg2).1 =
      (launchAgent2_construct initialClassState api1 cfg1).1 ∧
    (launchAgent2_construct
        (launchAgent2_construct initialClassState api1 cfg1).1 api2 cfg2).2.config =
      cfg1 :=
  ⟨rfl, rfl, rfl⟩

/-- C5: a JobSet's metadata generation counter never decreases under a sync,
and a sync carrying a lower generation is dropped with local state
unchanged; consequently the generation observed over any sequence of syncs
is non-decreasing. -/
theorem C5_generation_monotone (s : JobSetLocal) (snap : JobSetSnapshot) :
    s.metadata.generation ≤ (applySync s snap).metadata.generation ∧
    (snap.metadata.generation < s.metadata.generation → applySync s snap = s) ∧
    (∀ snaps : List JobSetSnapshot,
      s.metadata.generation ≤
        (snaps.foldl applySync s).metadata.generation) := by
  have step : ∀ (s0 : JobSetLocal) (sn : JobSetSnapshot),
      s0.metadata.generation ≤ (applySync s0 sn).metadata.generation := by
    intro s0 sn
    unfold applySync
    split
    · exact le_refl _
    · exact le_of_not_lt (by assumption)
  refine ⟨step s snap, fun hlt => ?_, fun snaps => ?_⟩
  · unfold applySync
    exact if_pos hlt
  · induction snaps generalizing s with
    | nil => exact le_refl _
    | cons sn rest ih =>
      exact le_trans (step s sn) (ih (applySync s sn))

/-- Witness for C5: a snapshot with generation 3 arriving at local
generation 5 is dropped and the state is unchanged. -/
theorem C5_generation_monotone_witness :
    applySync ⟨["a"], ⟨"i", "n", "r", 5⟩⟩ ⟨["b"], ⟨"i", "n", "r", 3⟩⟩ =
      ⟨["a"], ⟨"i", "n", "r", 5⟩⟩ :=
  (C5_generation_monotone ⟨["a"], ⟨"i", "n", "r", 5⟩⟩
    ⟨["b"], ⟨"i", "n", "r", 3⟩⟩).2.1 (by decide)

/-- C6: when a controller's in-flight count equals its concurrency limit,
submit fails fast with a backpressure signal and afterwards both the
controller (no local buffering) and the remote queue (item still unclaimed)
are exactly as before. -/
theorem C6_backpressure (c : LaunchController) (q : RemoteQueue) (i : ItemId)
    (hsat : c.inFlight.length = c.limit) :
    submit c q i = (c, q, SubmitResult.backpressure) := by
  unfold submit
  exact if_pos (le_of_eq hsat.symm)

/-- Witness for C6: a controller with limit 2 and two in-flight items rejects
a submit, leaving the controller and the queue untouched. -/
theorem C6_backpressure_witness :
    submit ⟨2, [10, 11]⟩ ⟨[12]⟩ 12 =
      (⟨2, [10, 11]⟩, ⟨[12]⟩, SubmitResult.backpressure) :=
  C6_backpressure ⟨2, [10, 11]⟩ ⟨[12]⟩ 12 (by decide)

/-! ### C1: per-item lifecycle state machine (spec-modelled) -/

/-- The lifecycle states of one claimed QueueItem (spec section 4.3). -/
inductive ItemState where
  | claimed
  | building
  | launching
  | monitoring
  | finished
  | failed
  | stopped
deriving DecidableEq, Fintype, Repr

/-- Modelled from the spec: the full per-item transition relation of the
Controller state machine, spec section 4.3 — the forward pipeline
claimed → building → launching → monitoring → finished, with building
skipped when the image is pre-built, a build or launch failure going
directly to failed, monitoring ending in finished, failed or stopped, and
cancellation while building/launching/monitoring going to stopped. -/
def lifecycleStep : ItemState → ItemState → Bool
  | ItemState.claimed, ItemState.building => true
  | ItemState.claimed, ItemState.launching => true
  | ItemState.building, ItemState.launching => true
  | ItemState.building, ItemState.failed => true
  | ItemState.building, ItemState.stopped => true
  | ItemState.launching, ItemState.monitoring => true
  | ItemState.launching, ItemState.failed => true
  | ItemState.launching, ItemState.stopped => true
  | ItemState.monitoring, ItemState.finished => true
  | ItemState.monitoring, ItemState.failed => true
  | ItemState.monitoring, ItemState.stopped => true
  | _, _ => false

/-- The claim's reading of the order: every transition moves to the
immediately next stage of
claimed → building → launching → monitoring → terminal, with only building
optional.  Defined for comparison with `lifecycleStep`. -/
def claimedOrderStep : ItemState → ItemState → Bool
  | ItemState.claimed, ItemState.building => true
  | ItemState.claimed, ItemState.launching => true
  | ItemState.building, ItemState.launching => true
  | ItemState.launching, ItemState.monitoring => true
  | ItemState.monitoring, ItemState.finished => true
  | ItemState.monitoring, ItemState.failed => true
  | ItemState.monitoring, ItemState.stopped => true
  | _, _ => false

/-- The position of a state in the pipeline; all terminal states share the
final rank. -/
def stageRank : ItemState → Nat
  | ItemState.claimed => 0
  | ItemState.building => 1
  | ItemState.launching => 2
  | ItemState.monitoring => 3
  | ItemState.finished => 4
  | ItemState.failed => 4
  | ItemState.stopped => 4

/-- C1 counterexample: the spec's own state machine contains the transition
building → failed (a build failure), which skips both launching and
monitoring, so not every transition goes to the immediately next stage with
only building optional. -/
theorem C1_lifecycle_counterexample :
    lifecycleStep ItemState.building ItemState.failed = true ∧
    claimedOrderStep ItemState.building ItemState.failed = false := by
  decide

/-- C1 (amended): every lifecycle transition strictly increases the pipeline
rank — hence no state is ever entered twice and no transition goes backward
or out of order — and every transition either moves to the immediately next
stage (building optional) or exits directly to the terminal failed/stopped
state on a failure or cancellation; in particular finished is only ever
reached from monitoring, and along any chain of transitions the ranks are
strictly increasing, so no state repeats. -/
theorem C1_lifecycle_order (s s2 : ItemState)
    (h : lifecycleStep s s2 = true) :
    (stageRank s < stageRank s2 ∧
      (claimedOrderStep s s2 = true ∨ s2 = ItemState.failed ∨
        s2 = ItemState.stopped)) ∧
    (s2 = ItemState.finished → s = ItemState.monitoring) := by
  revert h
  revert s s2
  decide

/-- Witness for C1 at the concrete transition claimed → building. -/
theorem C1_lifecycle_order_witness :
    (stageRank ItemState.claimed < stageRank ItemState.building ∧
      (claimedOrderStep ItemState.claimed ItemState.building = true ∨
        ItemState.building = ItemState.failed ∨
        ItemState.building = ItemState.stopped)) ∧
    (ItemState.building = ItemState.finished →
      ItemState.claimed = ItemState.monitoring) :=
  C1_lifecycle_order ItemState.claimed ItemState.building (by decide)

/-- Auxiliary for C1: along any chain of lifecycle transitions the stage
ranks strictly increase pairwise, so no state is entered twice. -/
theorem lifecycle_chain_ranks_increase (l : List ItemState)
    (h : List.Chain' (fun a b => lifecycleStep a b = true) l) :
    List.Pairwise (fun a b => stageRank a < stageRank b) l := by
  have mono : ∀ a b : ItemState, lifecycleStep a b = true →
      stageRank a < stageRank b := by decide
  have h2 : List.Chain' (fun a b : ItemState => stageRank a < stageRank b) l :=
    List.Chain'.imp (fun a b hab => mono a b hab) h
  haveI : IsTrans ItemState (fun a b => stageRank a < stageRank b) :=
    ⟨fun _ _ _ hab hbc => Nat.lt_trans hab hbc⟩
  exact List.chain'_iff_pairwise.mp h2

/-! ### C2: claim exclusivity (spec-modelled) -/

/-- Identity of one Controller instance. -/
abbrev ControllerId := Nat

/-- Modelled from the spec: the joint state of all controllers and the
remote queue relevant to claiming — which (controller, item) StatusTrackers
currently exist, and which item identities the remote queue has marked
claimed (spec sections 3, 4.3 and 5). -/
structure ClaimSystem where
  trackers : List (ControllerId × ItemId)
  remoteClaimed : List ItemId
deriving DecidableEq, Repr

/-- Modelled from the spec: the claiming events.  A controller claims an item
only when the remote queue still shows it unclaimed (at-most-once claim,
arbitrated remotely); losing the claim race is a no-op; finalizing discards
the StatusTracker and releases the item (spec sections 4.3 and 7). -/
inductive ClaimStep : ClaimSystem → ClaimSystem → Prop where
  | claim (s : ClaimSystem) (c : ControllerId) (i : ItemId)
      (h : i ∉ s.remoteClaimed) :
      ClaimStep s ⟨(c, i) :: s.trackers, i :: s.remoteClaimed⟩
  | claimRace (s : ClaimSystem) (c : ControllerId) (i : ItemId)
      (h : i ∈ s.remoteClaimed) : ClaimStep s s
  | finalize (s : ClaimSystem) (c : ControllerId) (i : ItemId)
      (h : (c, i) ∈ s.trackers) :
      ClaimStep s ⟨s.trackers.erase (c, i), s.remoteClaimed.erase i⟩

/-- The states reachable from the initial empty system. -/
inductive ClaimReachable : ClaimSystem → Prop where
  | init : ClaimReachable ⟨[], []⟩
  | step {s s2 : ClaimSystem} :
      ClaimReachable s → ClaimStep s s2 → ClaimReachable s2

/-- The claiming invariant: item identities of existing trackers are
pairwise distinct, and every tracked item is marked claimed remotely. -/
def ClaimInv (s : ClaimSystem) : Prop :=
  (s.trackers.map Prod.snd).Nodup ∧
  ∀ p ∈ s.trackers, p.2 ∈ s.remoteClaimed

/-- In a list of trackers whose item components are pairwise distinct, an
item determines its controller. -/
theorem nodup_snd_unique {l : List (ControllerId × ItemId)}
    (h : (l.map Prod.snd).Nodup) {c d i : Nat}
    (h1 : (c, i) ∈ l) (h2 : (d, i) ∈ l) : c = d := by
  induction l with
  | nil => cases h1
  | cons p tl ih =>
    rw [List.map_cons, List.nodup_cons] at h
    rcases List.mem_cons.mp h1 with h1h | h1t
    · rcases List.mem_cons.mp h2 with h2h | h2t
      · rw [← h1h] at h2h
        exact (Prod.mk.injEq _ _ _ _ ▸ h2h.symm).1
      · exfalso
        have hmem : i ∈ List.map Prod.snd tl := List.mem_map_of_mem Prod.snd h2t
        rw [← h1h] at h
        exact h.1 hmem
    · rcases List.mem_cons.mp h2 with h2h | h2t
      · exfalso
        have hmem : i ∈ List.map Prod.snd tl := List.mem_map_of_mem Prod.snd h1t
        rw [← h2h] at h
        exact h.1 hmem
      · exact ih h.2 h1t h2t

/-- The claiming invariant is preserved by every step. -/
theorem claimInv_step {s s2 : ClaimSystem} (hinv : ClaimInv s)
    (hstep : ClaimStep s s2) : ClaimInv s2 := by
  cases hstep with
  | claim c i h =>
    constructor
    · rw [List.map_cons, List.nodup_cons]
      refine ⟨fun hmem => ?_, hinv.1⟩
      rcases List.mem_map.mp hmem with ⟨p, hp, hpi⟩
      have hpi2 : p.2 = i := hpi
      exact h (hpi2 ▸ hinv.2 p hp)
    · intro p hp
      rcases List.mem_cons.mp hp with hph | hpt
      · rw [hph]
        exact List.mem_cons_self _ _
      · exact List.mem_cons_of_mem _ (hinv.2 p hpt)
  | claimRace c i h => exact hinv
  | finalize c i h =>
    have hnodup_tr : s.trackers.Nodup := List.Nodup.of_map Prod.snd hinv.1
    constructor
    · exact List.Nodup.sublist
        (List.Sublist.map Prod.snd (List.erase_sublist _ _)) hinv.1
    · intro p hp
      obtain ⟨p1, p2⟩ := p
      have hp0 : (p1, p2) ∈ s.trackers := List.mem_of_mem_erase hp
      have hrc : p2 ∈ s.remoteClaimed := hinv.2 (p1, p2) hp0
      by_cases hpi : p2 = i
      · exfalso
        subst hpi
        have hc : p1 = c := nodup_snd_unique hinv.1 hp0 h
        subst hc
        exact ((List.Nodup.mem_erase_iff hnodup_tr).mp hp).1 rfl
      · exact (List.mem_erase_of_ne hpi).mpr hrc

/-- Every reachable state satisfies the claiming invariant. -/
theorem claimInv_reachable {s : ClaimSystem} (h : ClaimReachable s) :
    ClaimInv s := by
  induction h with
  | init => exact ⟨List.nodup_nil, fun p hp => absurd hp (List.not_mem_nil p)⟩
  | step _ hstep ih => exact claimInv_step ih hstep

/-- C2: in every reachable state, a QueueItem identity is claimed by at most
one controller — no two controllers simultaneously hold a StatusTracker for
the same item. -/
theorem C2_claim_exclusivity {s : ClaimSystem} (h : ClaimReachable s)
    {c d : ControllerId} {i : ItemId}
    (h1 : (c, i) ∈ s.trackers) (h2 : (d, i) ∈ s.trackers) : c = d :=
  nodup_snd_unique (claimInv_reachable h).1 h1 h2

/-- Witness for C2 at the state reached by controller 0 claiming item 1 from
the initial system. -/
theorem C2_claim_exclusivity_witness : (0 : ControllerId) = 0 :=
  C2_claim_exclusivity
    (ClaimReachable.step ClaimReachable.init
      (ClaimStep.claim ⟨[], []⟩ 0 1 (List.not_mem_nil 1)))
    (List.mem_singleton.mpr rfl) (List.mem_singleton.mpr rfl)

/-! ### C7: failure isolation between items (spec-modelled) -/

/-- The terminal outcome reported for one item. -/
inductive RunOutcome where
  | finished
  | failed (msg : String)
  | stopped
deriving DecidableEq, Repr

/-- Modelled from the spec: the pluggable backend a controller drives one
item with — `Builder.build` returning an image reference or a build error,
and the launch-plus-monitoring outcome produced by the Runner for a built
image (spec section 6). -/
structure Backend where
  build : ItemId → Except String String
  execute : ItemId → String → RunOutcome

/-- Modelled from the spec: one item's lifecycle under a backend — a build
failure is terminal for that item and is reported as failed with the
build's error message; otherwise the launch/monitor outcome is reported
(spec sections 4.3 and 7). -/
def runItem (be : Backend) (i : ItemId) : RunOutcome :=
  match be.build i with
  | Except.error msg => RunOutcome.failed msg
  | Except.ok image => be.execute i image

/-- Modelled from the spec: a controller drives each of its items through
its lifecycle independently and reports an outcome for every item — one
item's failure never terminates the controller (spec section 7). -/
def controllerProcess (be : Backend) (items : List ItemId) :
    List (ItemId × RunOutcome) :=
  items.map (fun i => (i, runItem be i))

/-- C7: when the builder raises for item X, X is reported failed with the
build's error message; any other item Y whose own backend behaviour is
unchanged gets exactly the outcome it would have had under a backend where
X does not fail; and the controller still reports an outcome for every one
of its items. -/
theorem C7_build_failure_isolation (be be2 : Backend) (X Y : ItemId)
    (msg : String) (hX : be.build X = Except.error msg) :
    runItem be X = RunOutcome.failed msg ∧
    (be.build Y = be2.build Y →
      (∀ image : String, be.execute Y image = be2.execute Y image) →
      runItem be Y = runItem be2 Y) ∧
    (∀ items : List ItemId,
      (controllerProcess be items).map Prod.fst = items) := by
  refine ⟨?_, fun hb he => ?_, fun items => ?_⟩
  · unfold runItem
    rw [hX]
  · unfold runItem
    rw [hb]
    cases be2.build Y with
    | error m => rfl
    | ok image => exact he image
  · induction items with
    | nil => rfl
    | cons a tl ih =>
      simp only [controllerProcess, List.map_cons] at ih ⊢
      rw [ih]

/-- Witness for C7: a backend whose builder fails for item 0 with message
"boom" while item 1 behaves as under a backend where item 0 succeeds. -/
theorem C7_build_failure_isolation_witness :
    runItem ⟨fun i => if i == 0 then Except.error "boom" else Except.ok "img",
             fun _ _ => RunOutcome.finished⟩ 0 = RunOutcome.failed "boom" ∧
    runItem ⟨fun i => if i == 0 then Except.error "boom" else Except.ok "img",
             fun _ _ => RunOutcome.finished⟩ 1 =
      runItem ⟨fun _ => Except.ok "img",
               fun _ _ => RunOutcome.finished⟩ 1 :=
  ⟨(C7_build_failure_isolation
      ⟨fun i => if i == 0 then Except.error "boom" else Except.ok "img",
       fun _ _ => RunOutcome.finished⟩
      ⟨fun _ => Except.ok "img", fun _ _ => RunOutcome.finished⟩
      0 1 "boom" rfl).1,
   (C7_build_failure_isolation
      ⟨fun i => if i == 0 then Except.error "boom" else Except.ok "img",
       fun _ _ => RunOutcome.finished⟩
      ⟨fun _ => Except.ok "img", fun _ _ => RunOutcome.finished⟩
      0 1 "boom" rfl).2.1 rfl (fun _ => rfl)⟩

/-! ### C8: stop-polling and interrupted shutdown (spec-modelled) -/

/-- Modelled from the spec: the response of the remote agent-status call
`getLaunchAgentStatus() -> (name, stopPolling)` (spec section 6). -/
structure AgentStatus where
  name : String
  stopPolling : Bool
deriving DecidableEq, Repr

/-- Modelled from the spec: the supervisory loop's state — the queues for
which JobSets have been created and the in-flight controller work. -/
structure SupervisorState where
  jobsets : List String
  inFlight : List ItemId
deriving DecidableEq, Repr

/-- Modelled from the spec: one poll cycle of the supervisory loop.  When the
remote status reports stopPolling, the loop stops creating new JobSets but
does not touch in-flight controller work; otherwise it creates a JobSet per
pending queue (spec sections 4.1 and 8). -/
def pollCycle (status : AgentStatus) (s : SupervisorState)
    (pendingQueues : List String) : SupervisorState :=
  if status.stopPolling then s
  else { s with jobsets := s.jobsets ++ pendingQueues }

/-- How the ensuing shutdown ends. -/
inductive ShutdownResult where
  | completed (log : List String)
  | crashed
deriving DecidableEq, Repr

/-- The log line written for a caught error. -/
def errorLogLine : PyError → String
  | PyError.valueError m => "caught ValueError: " ++ m
  | PyError.typeError m => "caught TypeError: " ++ m
  | PyError.keyboardInterrupt => "caught KeyboardInterrupt"

/-- Modelled from the spec: reporting a failed item via `failRunQueueItem`
during shutdown.  An interrupt-like error raised by the call is caught and
logged by the supervisory loop instead of crashing it (spec section 8; in
test_agent2.py `fail_run_queue_item` is mocked to raise KeyboardInterrupt
and the loop survives). -/
def reportFailDuringShutdown (callResult : Except PyError Unit)
    (log : List String) : ShutdownResult :=
  match callResult with
  | Except.ok _ => ShutdownResult.completed log
  | Except.error e => ShutdownResult.completed (log ++ [errorLogLine e])

/-- C8: with stopPolling reported, a poll cycle creates no new JobSets and
leaves in-flight work untouched; and a failRunQueueItem call that raises an
interrupt-like error during shutdown is caught and logged — the shutdown
never crashes the supervisory loop. -/
theorem C8_stop_polling_and_interrupt (name : String) (s : SupervisorState)
    (pendingQueues : List String) (log : List String) :
    pollCycle ⟨name, true⟩ s pendingQueues = s ∧
    reportFailDuringShutdown (Except.error PyError.keyboardInterrupt) log =
      ShutdownResult.completed (log ++ ["caught KeyboardInterrupt"]) ∧
    (∀ callResult : Except PyError Unit,
      reportFailDuringShutdown callResult log ≠ ShutdownResult.crashed) := by
  refine ⟨rfl, rfl, fun callResult => ?_⟩
  cases callResult with
  | ok u => exact fun hcontra => ShutdownResult.noConfusion hcontra
  | error e => exact fun hcontra => ShutdownResult.noConfusion hcontra

/-! ### C9: _DynamicOperationStatsPrinter (wandb/sdk/lib/progress.py) -/

/-- The printer collaborator used by `_DynamicOperationStatsPrinter`:
`supports_unicode`, `error` and `secondary_text` (wandb/sdk/lib/printer
interface, used by progress.py only for these three members). -/
structure ConsolePrinter where
  supports_unicode : Bool
  error : String → String
  secondary_text : String → String

/-- One `pb.Operation` protobuf message as consumed by progress.py: `desc`,
`progress`, `runtime_seconds`, `error_status` and `subtasks`.  The Python
float `runtime_seconds` is modelled on whole seconds; it only influences
the characters inside one line, never the line structure. -/
inductive Operation where
  | mk (desc : String) (progress : String) (runtime_seconds : Nat)
      (error_status : String) (subtasks : List Operation)

/-- The `pb.OperationStats` message: top-level operations plus the total
operation count. -/
structure OperationStats where
  operations : List Operation
  total_operations : Nat

/-- The mutable state of one `_DynamicOperationStatsPrinter`: constructor
arguments plus `_lines` and `_ops_shown`. -/
structure StatsPrinterState where
  printer : ConsolePrinter
  max_lines : Nat
  loading_symbol : String
  lines : List String
  ops_shown : Nat

/-- Embeds progress.py `_time_to_string`.  The Python original formats a
float with `:.1f`/`:.0f`; on the whole-second inputs modelled here the
digits may differ but the result is always a single token inside one
line. -/
def time_to_string (seconds : Nat) : String :=
  if seconds < 10 then toString seconds ++ ".0s"
  else if seconds < 60 then toString seconds ++ "s"
  else if seconds < 60 * 60 then
    toString (seconds / 60) ++ "." ++ toString (seconds * 10 / 60 % 10) ++ "m"
  else
    toString (seconds / (60 * 60)) ++ "h" ++ toString (seconds / 60 % 60) ++ "m"

mutual
/-- Embeds progress.py `_DynamicOperationStatsPrinter._add_operation`: do
nothing once `_lines` has reached `_max_lines`; otherwise append the
operation's line, then an ERROR line when `error_status` is non-empty, then
recurse into the subtasks with increased indentation. -/
def add_operation (st : StatsPrinterState) (op : Operation)
    (is_subtask : Bool) (indent : String) : StatsPrinterState :=
  match op with
  | Operation.mk desc progress runtime error_status subtasks =>
    if st.max_lines ≤ st.lines.length then st
    else
      let runtimeStr := time_to_string runtime
      let parts : List String :=
        (if is_subtask && st.printer.supports_unicode then ["↳"] else []) ++
        (if st.loading_symbol ≠ "" then [st.loading_symbol] else []) ++
        [desc] ++
        (if progress ≠ "" then [progress] else []) ++
        ["(" ++ runtimeStr ++ ")"]
      let st1 : StatsPrinterState :=
        { st with lines := st.lines ++ [indent ++ String.intercalate " " parts] }
      let st2 : StatsPrinterState :=
        if error_status ≠ "" then
          { st1 with lines := st1.lines ++
            [indent ++ "  " ++ st1.printer.error "ERROR" ++ " " ++
              st1.printer.secondary_text error_status] }
        else st1
      add_operation_list st2 subtasks (indent ++ "  ")
/-- The loop over `op.subtasks` inside `_add_operation`. -/
def add_operation_list (st : StatsPrinterState) (ops : List Operation)
    (indent : String) : StatsPrinterState :=
  match ops with
  | [] => st
  | op :: rest => add_operation_list (add_operation st op true indent) rest indent
end

/-- One iteration of the loop over `stats.operations` inside `display`:
`self._add_operation(op, is_subtask=False, indent="")` followed by
`self._ops_shown += 1`. -/
def display_step (acc : StatsPrinterState) (op : Operation) : StatsPrinterState :=
  let acc2 := add_operation acc op false ""
  { acc2 with ops_shown := acc2.ops_shown + 1 }

/-- Embeds progress.py `_DynamicOperationStatsPrinter.display`, returning
the list of lines written to the text area (the text itself is those lines
joined with a newline): add each top-level operation counting it in
`_ops_shown`; when fewer operations were shown than `total_operations`, pop
the last line if the budget is full and append the "+ N more tasks"
summary. -/
def stats_display (st : StatsPrinterState) (stats : OperationStats) :
    List String :=
  let stA := stats.operations.foldl display_step st
  let stB :=
    if stA.ops_shown < stats.total_operations then
      let stP :=
        if 1 ≤ stA.max_lines ∧ stA.max_lines ≤ stA.lines.length then
          { stA with lines := stA.lines.dropLast }
        else stA
      { stP with lines := stP.lines ++
        ["+ " ++ toString (stats.total_operations - stP.ops_shown) ++ " more tasks"] }
    else stA
  stB.lines

/-- The state built by `_DynamicOperationStatsPrinter.__init__`: empty
`_lines`, zero `_ops_shown` (the object is single-use, so `display` always
starts from this state). -/
def mkStatsPrinter (printer : ConsolePrinter) (maxLines : Nat)
    (loadingSymbol : String) : StatsPrinterState :=
  ⟨printer, maxLines, loadingSymbol, [], 0⟩

/-- When the line budget is zero, `_add_operation` is a no-op: the entry
check fires immediately. -/
theorem add_operation_zero (st : StatsPrinterState) (op : Operation)
    (b : Bool) (ind : String) (h : st.max_lines = 0) :
    add_operation st op b ind = st := by
  cases op with
  | mk desc progress runtime error_status subtasks =>
    rw [add_operation, if_pos]
    rw [h]
    exact Nat.zero_le _

mutual
/-- `_add_operation` never changes the budget, and it keeps the line count
within `max_lines + 1`: a call entered below the budget can append the
operation line plus at most one ERROR line; every later call sees a full
budget and stops. -/
theorem add_operation_budget (st : StatsPrinterState) (op : Operation)
    (b : Bool) (ind : String) :
    (add_operation st op b ind).max_lines = st.max_lines ∧
    (st.lines.length ≤ st.max_lines + 1 →
      (add_operation st op b ind).lines.length ≤ st.max_lines + 1) := by
  cases op with
  | mk desc progress runtime error_status subtasks =>
    rw [add_operation]
    by_cases hfull : st.max_lines ≤ st.lines.length
    · rw [if_pos hfull]
      exact ⟨rfl, fun h => h⟩
    · rw [if_neg hfull]
      have hlen : st.lines.length < st.max_lines := lt_of_not_le hfull
      dsimp only
      by_cases herr : error_status ≠ ""
      · simp only [if_pos herr]
        refine ⟨(add_operation_list_budget _ subtasks _).1,
          fun h => (add_operation_list_budget _ subtasks _).2 ?_⟩
        simp only [List.length_append, List.length_cons, List.length_nil]
        omega
      · simp only [if_neg herr]
        refine ⟨(add_operation_list_budget _ subtasks _).1,
          fun h => (add_operation_list_budget _ subtasks _).2 ?_⟩
        simp only [List.length_append, List.length_cons, List.length_nil]
        omega
/-- The subtask loop never changes the budget and keeps the line count
within `max_lines + 1`. -/
theorem add_operation_list_budget (st : StatsPrinterState)
    (ops : List Operation) (ind : String) :
    (add_operation_list st ops ind).max_lines = st.max_lines ∧
    (st.lines.length ≤ st.max_lines + 1 →
      (add_operation_list st ops ind).lines.length ≤ st.max_lines + 1) := by
  cases ops with
  | nil => exact ⟨rfl, fun h => h⟩
  | cons op rest =>
    rw [add_operation_list]
    have hop := add_operation_budget st op true ind
    have hrest := add_operation_list_budget (add_operation st op true ind) rest ind
    refine ⟨by rw [hrest.1, hop.1], fun h => ?_⟩
    have h2 := hrest.2 (by rw [hop.1]; exact hop.2 h)
    rw [hop.1] at h2
    exact h2
end


/-- The top-level loop of `display` over `stats.operations` never changes
the budget and keeps the line count within `max_lines + 1`. -/
theorem stats_fold_budget (ops : List Operation) (st : StatsPrinterState)
    (h : st.lines.length ≤ st.max_lines + 1) :
    (ops.foldl display_step st).max_lines = st.max_lines ∧
    (ops.foldl display_step st).lines.length ≤ st.max_lines + 1 := by
  induction ops generalizing st with
  | nil => exact ⟨rfl, h⟩
  | cons op rest ih =>
    simp only [List.foldl_cons]
    have hop := add_operation_budget st op false ""
    have hstep_max : (display_step st op).max_lines = st.max_lines := hop.1
    have hstep_len : (display_step st op).lines.length ≤ st.max_lines + 1 :=
      hop.2 h
    have hnext := ih (display_step st op)
      (by rw [hstep_max]; exact hstep_len)
    refine ⟨by rw [hnext.1, hstep_max], ?_⟩
    have h2 := hnext.2
    rw [hstep_max] at h2
    exact h2

/-- With a zero budget the top-level loop of `display` leaves the lines
empty and the budget zero. -/
theorem stats_fold_zero (ops : List Operation) (st : StatsPrinterState)
    (h : st.max_lines = 0) :
    (ops.foldl display_step st).lines = st.lines ∧
    (ops.foldl display_step st).max_lines = 0 := by
  induction ops generalizing st with
  | nil => exact ⟨rfl, h⟩
  | cons op rest ih =>
    simp only [List.foldl_cons]
    have hstep : display_step st op = { st with ops_shown := st.ops_shown + 1 } := by
      unfold display_step
      rw [add_operation_zero st op false "" h]
    rw [hstep]
    exact ih { st with ops_shown := st.ops_shown + 1 } h

/-- C9 counterexample: with a budget of one line, displaying a single
operation that carries an error status writes two lines — the operation
line plus the ERROR line — exceeding `max_lines`. -/
theorem C9_line_budget_counterexample :
    ¬ ((stats_display (mkStatsPrinter ⟨false, fun s => s, fun s => s⟩ 1 "")
        ⟨[Operation.mk "uploading file" "" 0 "broken pipe" []], 1⟩).length ≤ 1) := by
  decide

/-- C9 (amended): for every OperationStats input, the text written to the
text area by `display` contains at most `max_lines + 1` lines: each call to
`_add_operation` stops adding once the line budget is reached, but an
operation entered one below the budget may append its ERROR line one past
it, and the "+ N more tasks" summary replaces a popped line whenever the
budget is full. -/
theorem C9_line_budget (printer : ConsolePrinter) (maxLines : Nat)
    (loadingSymbol : String) (stats : OperationStats) :
    (stats_display (mkStatsPrinter printer maxLines loadingSymbol)
      stats).length ≤ maxLines + 1 := by
  unfold stats_display
  dsimp only
  by_cases hmax : maxLines = 0
  · subst hmax
    have hz := stats_fold_zero stats.operations
      (mkStatsPrinter printer 0 loadingSymbol) rfl
    simp only [mkStatsPrinter] at hz ⊢
    split
    · split
      · rename_i hcond
        rw [hz.2] at hcond
        exact absurd hcond.1 (by omega)
      · simp only [List.length_append, List.length_cons, List.length_nil]
        rw [hz.1]
        simp
    · rw [hz.1]
      simp
  · have hb := stats_fold_budget stats.operations
      (mkStatsPrinter printer maxLines loadingSymbol)
      (by simp [mkStatsPrinter])
    simp only [mkStatsPrinter] at hb ⊢
    split
    · split
      · simp only [List.length_append, List.length_cons, List.length_nil,
          List.length_dropLast]
        have h2 := hb.2
        omega
      · rename_i hcond
        push_neg at hcond
        have h1 : 1 ≤ (List.foldl display_step
            ⟨printer, maxLines, loadingSymbol, [], 0⟩ stats.operations).max_lines := by
          rw [hb.1]
          omega
        have hlt := hcond h1
        simp only [List.length_append, List.length_cons, List.length_nil]
        have h2 := hb.2
        have h3 := hb.1
        omega
    · exact hb.2

/-! ### C10: prepare_data (wandb/sdk/rich_types/video.py) -/

/-- Fuel-driven computation of the number of binary digits of a natural
number; the fuel argument makes the recursion structural. -/
def bitLenFuel : Nat → Nat → Nat
  | _, 0 => 0
  | 0, _ + 1 => 0
  | fuel + 1, n + 1 => bitLenFuel fuel ((n + 1) / 2) + 1

/-- Models Python `int.bit_length()` on nonnegative integers, as used by
prepare_data via `data.shape[0].bit_length()` and `b.bit_length()`. -/
def bit_length (n : Nat) : Nat := bitLenFuel n n

/-- Recurrence of `Nat.size` on a successor. -/
theorem size_succ_div_two (m : Nat) :
    Nat.size (m + 1) = Nat.size ((m + 1) / 2) + 1 := by
  have hne : Nat.bit (m + 1).bodd (m + 1).div2 ≠ 0 := by
    rw [Nat.bit_decomp]
    exact Nat.succ_ne_zero m
  conv_lhs => rw [← Nat.bit_decomp (m + 1)]
  rw [Nat.size_bit hne, Nat.div2_val]

/-- `bitLenFuel` computes `Nat.size` whenever the fuel suffices. -/
theorem bitLenFuel_eq_size : ∀ fuel n : Nat, n ≤ fuel →
    bitLenFuel fuel n = Nat.size n := by
  intro fuel
  induction fuel with
  | zero =>
    intro n hn
    have hn0 : n = 0 := Nat.le_zero.mp hn
    subst hn0
    rw [Nat.size_zero]
    rfl
  | succ fuel ih =>
    intro n hn
    cases n with
    | zero =>
      rw [Nat.size_zero]
      rfl
    | succ m =>
      have hstep : bitLenFuel (fuel + 1) (m + 1) =
          bitLenFuel fuel ((m + 1) / 2) + 1 := rfl
      rw [hstep, ih ((m + 1) / 2) (by omega), size_succ_div_two]

/-- `bit_length` agrees with `Nat.size`. -/
theorem bit_length_eq_size (n : Nat) : bit_length n = Nat.size n :=
  bitLenFuel_eq_size n n (le_refl n)

/-- Embeds the local helper `is_power2` of prepare_data:
`num != 0 and ((num & (num - 1)) == 0)`. -/
def is_power2 (num : Nat) : Bool :=
  num != 0 && (num &&& (num - 1)) == 0

/-- Every power of two passes the `is_power2` test. -/
theorem is_power2_two_pow (m : Nat) : is_power2 (2 ^ m) = true := by
  rw [is_power2, Bool.and_eq_true, bne_iff_ne, beq_iff_eq]
  refine ⟨pow_ne_zero m (by norm_num), ?_⟩
  apply Nat.eq_of_testBit_eq
  intro i
  rw [Nat.testBit_land, Nat.zero_testBit, Nat.testBit_two_pow,
    Nat.testBit_two_pow_sub_one]
  by_cases h : m = i
  · subst h
    simp
  · simp [h]

/-- Everything passing the `is_power2` test is the power of two with
exponent `Nat.size - 1`. -/
theorem eq_two_pow_of_is_power2 : ∀ b : Nat, is_power2 b = true →
    b = 2 ^ (Nat.size b - 1) := by
  intro b
  induction b using Nat.strong_induction_on with
  | _ b IH =>
    intro h
    rw [is_power2, Bool.and_eq_true, bne_iff_ne, beq_iff_eq] at h
    obtain ⟨hne, hland⟩ := h
    have htb : ∀ i, (b.testBit i && (b - 1).testBit i) = false := by
      intro i
      rw [← Nat.testBit_land, hland, Nat.zero_testBit]
    rcases Nat.lt_or_ge b 2 with hb2 | hb2
    · have hb1 : b = 1 := by omega
      subst hb1
      rw [Nat.size_one]
      norm_num
    · have hq1 : 1 ≤ b / 2 := by omega
      rcases Nat.mod_two_eq_zero_or_one b with hpar | hpar
      · have hq_tb : ∀ i, ((b / 2).testBit i && (b / 2 - 1).testBit i) = false := by
          intro i
          have h1 := htb (i + 1)
          simp only [Nat.testBit_succ] at h1
          have he : (b - 1) / 2 = b / 2 - 1 := by omega
          rw [he] at h1
          exact h1
        have hq_pow : b / 2 = 2 ^ (Nat.size (b / 2) - 1) := by
          apply IH (b / 2) (by omega)
          rw [is_power2, Bool.and_eq_true, bne_iff_ne, beq_iff_eq]
          refine ⟨by omega, ?_⟩
          apply Nat.eq_of_testBit_eq
          intro i
          rw [Nat.testBit_land, Nat.zero_testBit]
          exact hq_tb i
        have hsq : 1 ≤ Nat.size (b / 2) := Nat.size_pos.mpr (by omega)
        have hb_eq : b = 2 ^ (Nat.size (b / 2) - 1 + 1) := by
          rw [pow_succ, ← hq_pow]
          omega
        have hsize : Nat.size b = Nat.size (b / 2) + 1 := by
          have h1 : b = (b - 1) + 1 := by omega
          have h2 : (b - 1 + 1) / 2 = b / 2 := by omega
          rw [h1, size_succ_div_two, h2]
        rw [hsize]
        have hexp : Nat.size (b / 2) + 1 - 1 = Nat.size (b / 2) - 1 + 1 := by
          omega
        rw [hexp]
        exact hb_eq
      · exfalso
        have hq0 : ∀ i, (b / 2).testBit i = false := by
          intro i
          have h1 := htb (i + 1)
          simp only [Nat.testBit_succ] at h1
          have he : (b - 1) / 2 = b / 2 := by omega
          rw [he] at h1
          cases hx : (b / 2).testBit i
          · rfl
          · rw [hx] at h1
            simp at h1
        have hzero : b / 2 = 0 := by
          apply Nat.eq_of_testBit_eq
          intro i
          rw [Nat.zero_testBit]
          exact hq0 i
        omega

/-- Embeds the power-of-two padding of prepare_data: when the batch
dimension is not a power of two, `len_addition = 2 ** b.bit_length() - b`
zero rows are concatenated, so afterwards `data.shape[0]` equals
`b + (2 ** b.bit_length() - b)`. -/
def pad_to_pow2 (b : Nat) : Nat :=
  if !(is_power2 b) then b + (2 ^ bit_length b - b) else b

/-- Embeds `n_rows = 2 ** ((b.bit_length() - 1) // 2)` of prepare_data. -/
def n_rows_of (b : Nat) : Nat := 2 ^ ((bit_length b - 1) / 2)

/-- Embeds `n_cols = data.shape[0] // n_rows` of prepare_data, where
`data.shape[0]` is the padded batch dimension. -/
def n_cols_of (b : Nat) : Nat := pad_to_pow2 b / n_rows_of b

/-- For a positive batch dimension the padded batch dimension is the least
power of two at least `b`, and the `n_rows` exponent stays within it. -/
theorem pad_to_pow2_spec (b : Nat) (hb : 1 ≤ b) :
    ∃ k : Nat, pad_to_pow2 b = 2 ^ k ∧ b ≤ 2 ^ k ∧ 2 ^ k < 2 * b ∧
      (bit_length b - 1) / 2 ≤ k := by
  have hbl : bit_length b = Nat.size b := bit_length_eq_size b
  rw [pad_to_pow2]
  cases hip : is_power2 b with
  | true =>
    have hpow := eq_two_pow_of_is_power2 b hip
    refine ⟨Nat.size b - 1, ?_, ?_, ?_, ?_⟩
    · simp only [hip, Bool.not_true, Bool.false_eq_true, if_false]
      exact hpow
    · exact le_of_eq hpow
    · rw [← hpow]
      omega
    · rw [hbl]
      exact Nat.div_le_self _ _
  | false =>
    have hlt : b < 2 ^ Nat.size b := Nat.lt_size_self b
    have hs1 : 1 ≤ Nat.size b := Nat.size_pos.mpr hb
    refine ⟨Nat.size b, ?_, le_of_lt hlt, ?_, ?_⟩
    · simp only [hip, Bool.not_false, if_true]
      rw [hbl]
      omega
    · have hle : 2 ^ (Nat.size b - 1) ≤ b := Nat.lt_size.mp (by omega)
      have hne2 : 2 ^ (Nat.size b - 1) ≠ b := by
        intro heq
        have hp2 := is_power2_two_pow (Nat.size b - 1)
        rw [heq, hip] at hp2
        cases hp2
      have hdouble : 2 ^ Nat.size b = 2 * 2 ^ (Nat.size b - 1) := by
        rw [← pow_succ']
        congr 1
        omega
      have hstrict : 2 ^ (Nat.size b - 1) < b := lt_of_le_of_ne hle hne2
      omega
    · rw [hbl]
      have := Nat.div_le_self (Nat.size b - 1) 2
      omega

/-- The integer division defining `n_cols` is exact: `n_rows * n_cols`
recovers the padded batch dimension. -/
theorem n_rows_mul_n_cols (b : Nat) (hb : 1 ≤ b) :
    n_rows_of b * n_cols_of b = pad_to_pow2 b := by
  obtain ⟨k, hpad, _, _, hker⟩ := pad_to_pow2_spec b hb
  rw [n_cols_of, n_rows_of, hpad]
  exact Nat.mul_div_cancel' (pow_dvd_pow 2 hker)

/-- Embeds video.py `prepare_data` at the level of array shapes.  An input
with fewer than 4 dimensions raises ValueError; a 4-dimensional input is
reshaped to `(1, *shape)`; `b, t, c, h, w = data.shape` raises ValueError
for more than 5 dimensions; a batch dimension of 0 makes
`2 ** ((0).bit_length() - 1) // 2)` the float `0.5` in Python, so the
subsequent `np.reshape` raises TypeError; otherwise the batch dimension is
padded to a power of two and the two `np.reshape` calls (whose size checks
are kept explicitly) produce shape `(t, n_rows * h, n_cols * w, c)`.  The
dtype conversion to uint8 and the transpose do not affect the shape. -/
def prepare_data (shape : List Nat) : Except PyError (List Nat) :=
  if shape.length < 4 then
    Except.error (PyError.valueError
      "Video must be atleast 4 dimensions: time, channels, height, width")
  else
    match (if shape.length == 4 then 1 :: shape else shape) with
    | [b, t, c, h, w] =>
      if b == 0 then
        Except.error (PyError.typeError
          "float object cannot be interpreted as an integer")
      else if n_rows_of b * n_cols_of b * (t * c * h * w) ==
          pad_to_pow2 b * (t * c * h * w) then
        if t * (n_rows_of b * h) * (n_cols_of b * w) * c ==
            n_rows_of b * n_cols_of b * (t * c * h * w) then
          Except.ok [t, n_rows_of b * h, n_cols_of b * w, c]
        else Except.error (PyError.valueError "cannot reshape array")
      else Except.error (PyError.valueError "cannot reshape array")
    | _ =>
      Except.error (PyError.valueError "too many values to unpack (expected 5)")

/-- Whether a `prepare_data` outcome is a raised ValueError; renders the
claim "prepare_data raises ValueError exactly when ndim < 4". -/
def raisesValueError : Except PyError (List Nat) → Bool
  | Except.error (PyError.valueError _) => true
  | _ => false

/-- C10 counterexample: a 6-dimensional input also raises ValueError (tuple
unpacking of the 5 shape names), so ValueError is not raised exactly when
the input has fewer than 4 dimensions; moreover a 5-dimensional input with
batch dimension 0 fails with a TypeError instead of returning a reshaped
array. -/
theorem C10_prepare_data_counterexample :
    raisesValueError (prepare_data [1, 1, 1, 1, 1, 1]) = true ∧
    ¬ (([1, 1, 1, 1, 1, 1] : List Nat).length < 4) ∧
    prepare_data [0, 1, 1, 1, 1] =
      Except.error (PyError.typeError
        "float object cannot be interpreted as an integer") :=
  ⟨rfl, by decide, rfl⟩

/-- C10 (amended): prepare_data raises ValueError when the input has fewer
than 4 dimensions and also when it has more than 5 (shape unpacking); a
4-dimensional input behaves exactly like the 5-dimensional input with batch
dimension 1; a 5-dimensional input with batch dimension 0 raises TypeError;
and for every 4- or 5-dimensional input with batch dimension b at least 1
the result has shape `(t, n_rows * h, n_cols * w, c)` where
`n_rows * n_cols` is b rounded up to the next power of two. -/
theorem C10_prepare_data :
    (∀ shape : List Nat, shape.length < 4 →
      prepare_data shape = Except.error (PyError.valueError
        "Video must be atleast 4 dimensions: time, channels, height, width")) ∧
    (∀ shape : List Nat, 5 < shape.length →
      prepare_data shape = Except.error (PyError.valueError
        "too many values to unpack (expected 5)")) ∧
    (∀ t c h w : Nat, prepare_data [t, c, h, w] = prepare_data [1, t, c, h, w]) ∧
    (∀ t c h w : Nat, prepare_data [0, t, c, h, w] =
      Except.error (PyError.typeError
        "float object cannot be interpreted as an integer")) ∧
    (∀ b t c h w : Nat, 1 ≤ b →
      ∃ k : Nat, prepare_data [b, t, c, h, w] =
          Except.ok [t, n_rows_of b * h, n_cols_of b * w, c] ∧
        n_rows_of b * n_cols_of b = 2 ^ k ∧ b ≤ 2 ^ k ∧ 2 ^ k < 2 * b) := by
  refine ⟨fun shape hlen => ?_, fun shape hlen => ?_,
    fun t c h w => rfl, fun t c h w => rfl, fun b t c h w hb => ?_⟩
  · rw [prepare_data, if_pos hlen]
  · rcases shape with _ | ⟨x1, _ | ⟨x2, _ | ⟨x3, _ | ⟨x4, _ | ⟨x5, _ | ⟨x6, rest⟩⟩⟩⟩⟩⟩ <;>
      simp only [List.length_cons, List.length_nil] at hlen <;> try omega
    rw [prepare_data, if_neg (by simp only [List.length_cons]; omega)]
    have h4 : ((x1 :: x2 :: x3 :: x4 :: x5 :: x6 :: rest).length == 4) = false := by
      rw [beq_eq_false_iff_ne]
      simp only [List.length_cons]
      omega
    rw [h4]
    rfl
  · obtain ⟨k, hpad, hble, hlt2, _⟩ := pad_to_pow2_spec b hb
    have hmul : n_rows_of b * n_cols_of b = pad_to_pow2 b := n_rows_mul_n_cols b hb
    refine ⟨k, ?_, by rw [hmul, hpad], hble, hlt2⟩
    have hshape : prepare_data [b, t, c, h, w] =
        (if b == 0 then
          Except.error (PyError.typeError
            "float object cannot be interpreted as an integer")
        else if n_rows_of b * n_cols_of b * (t * c * h * w) ==
            pad_to_pow2 b * (t * c * h * w) then
          if t * (n_rows_of b * h) * (n_cols_of b * w) * c ==
              n_rows_of b * n_cols_of b * (t * c * h * w) then
            Except.ok [t, n_rows_of b * h, n_cols_of b * w, c]
          else Except.error (PyError.valueError "cannot reshape array")
        else Except.error (PyError.valueError "cannot reshape array")) := rfl
    have hb0 : (b == 0) = false := by
      rw [beq_eq_false_iff_ne]
      omega
    have hc1 : (n_rows_of b * n_cols_of b * (t * c * h * w) ==
        pad_to_pow2 b * (t * c * h * w)) = true := by
      rw [beq_iff_eq, hmul]
    have hc2 : (t * (n_rows_of b * h) * (n_cols_of b * w) * c ==
        n_rows_of b * n_cols_of b * (t * c * h * w)) = true := by
      rw [beq_iff_eq]
      ring
    rw [hshape, hb0, hc1, hc2]
    simp

/-- Witness for C10 at concrete inputs: a 1-dimensional shape raises the
dimension ValueError, and the 5-dimensional shape (3, 2, 3, 4, 5) is tiled
into `n_rows * n_cols = 4` cells, the next power of two above 3. -/
theorem C10_prepare_data_witness :
    prepare_data [3] = Except.error (PyError.valueError
      "Video must be atleast 4 dimensions: time, channels, height, width") ∧
    (∃ k : Nat, prepare_data [3, 2, 3, 4, 5] =
        Except.ok [2, n_rows_of 3 * 4, n_cols_of 3 * 5, 3] ∧
      n_rows_of 3 * n_cols_of 3 = 2 ^ k ∧ 3 ≤ 2 ^ k ∧ 2 ^ k < 2 * 3) :=
  ⟨C10_prepare_data.1 [3] (by decide),
   C10_prepare_data.2.2.2.2 3 2 3 4 5 (by decide)⟩
